import Mathlib

/-!
Verification of the response-builder and error-dispatch layer of
`superset/views/base.py`.

The Python module is shallowly embedded: pure functions become Lean
functions, the Flask/werkzeug response object becomes an explicit
`Response` structure, exceptions become a sum type dispatched by the
decorator/handler functions, and the process-wide bootstrap cache and the
per-request flash-message session state become explicit state passed
through the functions that touch them.
-/

/-- Classification of a Python float as far as JSON serialization is
concerned.  Finite floats are carried by their decimal representation
string (the exact digits a float prints as are irrelevant to every claim);
the three non-finite classes are distinguished because `simplejson` treats
them specially. -/
inductive PyFloat where
  | finite (repr : String)
  | nan
  | inf
  | ninf
deriving DecidableEq, Repr

mutual
/-- A JSON-serializable Python value, mirroring what the module passes to
`simplejson.dumps`: None, bools, strings, ints, floats, lists and dicts
(dicts keep insertion order, as Python dicts do). -/
inductive JVal where
  | jnull
  | jbool (b : Bool)
  | jstr (s : String)
  | jint (n : Int)
  | jfloat (f : PyFloat)
  | jarr (xs : JArr)
  | jobj (kvs : JObj)
deriving DecidableEq, Repr

/-- A Python list of JSON values. -/
inductive JArr where
  | nil
  | cons (hd : JVal) (tl : JArr)
deriving DecidableEq, Repr

/-- A Python dict with string keys and JSON values, in insertion order. -/
inductive JObj where
  | nil
  | cons (k : String) (v : JVal) (tl : JObj)
deriving DecidableEq, Repr
end

/-- Build a `JArr` from a Lean list. -/
def JArr.ofList : List JVal → JArr
  | [] => .nil
  | v :: vs => .cons v (JArr.ofList vs)

/-- Build a `JObj` from a Lean association list. -/
def JObj.ofList : List (String × JVal) → JObj
  | [] => .nil
  | (k, v) :: kvs => .cons k v (JObj.ofList kvs)

/-- Python `d.get(k)`: first binding of `k`, if any (later bindings of the
same key never survive construction through `dictSet`, so first = last). -/
def JObj.get : JObj → String → Option JVal
  | .nil, _ => none
  | .cons k0 v0 tl, k => if k0 = k then some v0 else tl.get k

/-- Python `d[k] = v` on a dict: overwrite the value in place when the key
is present (keeping its position), append the binding otherwise. -/
def JObj.set : JObj → String → JVal → JObj
  | .nil, k, v => .cons k v .nil
  | .cons k0 v0 tl, k, v =>
      if k0 = k then .cons k0 v tl else .cons k0 v0 (tl.set k v)

/-- Python `d.update(e)` / `{**d, **e}`: fold `e`'s bindings into `d`,
later dict's value winning on key collision. -/
def JObj.update : JObj → JObj → JObj
  | d, .nil => d
  | d, .cons k v tl => JObj.update (d.set k v) tl

/-- Is the dict empty (Python truthiness of a dict: `not payload`)? -/
def JObj.isNil : JObj → Bool
  | .nil => true
  | .cons _ _ _ => false

/-- JSON string escaping as performed by the serializer for the character
set exercised by this module (quote, backslash and the common control
characters). -/
def jsonEscapeChar (c : Char) : String :=
  if c = '"' then "\\\""
  else if c = '\\' then "\\\\"
  else if c = '\n' then "\\n"
  else if c = '\t' then "\\t"
  else if c = '\r' then "\\r"
  else String.singleton c

/-- Serialize a string as a JSON string literal. -/
def jsonString (s : String) : String :=
  "\"" ++ String.join (s.data.map jsonEscapeChar) ++ "\""

/-- simplejson's `floatstr`: a finite float prints its decimal
representation; the three non-finite classes are emitted as `null` when
`ignore_nan` is set (the mode every call in this module uses), as the
bare literals `NaN` / `Infinity` / `-Infinity` when `allow_nan` permits
them (simplejson's default), and otherwise raise `ValueError`. -/
def floatstr (ignoreNan allowNan : Bool) : PyFloat → Except String String
  | .finite r => .ok r
  | .nan =>
      if ignoreNan then .ok "null"
      else if allowNan then .ok "NaN"
      else .error "Out of range float values are not JSON compliant"
  | .inf =>
      if ignoreNan then .ok "null"
      else if allowNan then .ok "Infinity"
      else .error "Out of range float values are not JSON compliant"
  | .ninf =>
      if ignoreNan then .ok "null"
      else if allowNan then .ok "-Infinity"
      else .error "Out of range float values are not JSON compliant"

mutual
/-- simplejson `dumps` of a value with default separators
(item separator a comma-space, key separator a colon-space).  The only
failure path is `floatstr` on a non-finite float with both `ignore_nan`
and `allow_nan` off; a raised error propagates like the Python
exception. -/
def dumpsVal (ignoreNan allowNan : Bool) : JVal → Except String String
  | .jnull => .ok "null"
  | .jbool b => .ok (if b then "true" else "false")
  | .jstr s => .ok (jsonString s)
  | .jint n => .ok (toString n)
  | .jfloat f => floatstr ignoreNan allowNan f
  | .jarr xs =>
      match dumpsArr ignoreNan allowNan xs with
      | .ok ss => .ok ("[" ++ String.intercalate ", " ss ++ "]")
      | .error e => .error e
  | .jobj kvs =>
      match dumpsObj ignoreNan allowNan kvs with
      | .ok ss => .ok ("\x7b" ++ String.intercalate ", " ss ++ "\x7d")
      | .error e => .error e

/-- Serialize the elements of a list. -/
def dumpsArr (ignoreNan allowNan : Bool) : JArr → Except String (List String)
  | .nil => .ok []
  | .cons v vs =>
      match dumpsVal ignoreNan allowNan v with
      | .ok s =>
          match dumpsArr ignoreNan allowNan vs with
          | .ok ss => .ok (s :: ss)
          | .error e => .error e
      | .error e => .error e

/-- Serialize the entries of a dict as `"key": value` strings. -/
def dumpsObj (ignoreNan allowNan : Bool) : JObj → Except String (List String)
  | .nil => .ok []
  | .cons k v kvs =>
      match dumpsVal ignoreNan allowNan v with
      | .ok s =>
          match dumpsObj ignoreNan allowNan kvs with
          | .ok ss => .ok ((jsonString k ++ ": " ++ s) :: ss)
          | .error e => .error e
      | .error e => .error e
end

mutual
/-- With `ignore_nan=True` — the mode used by every `json.dumps` call in
this module — serialization never raises, whatever the value contains. -/
theorem dumpsVal_ok (allowNan : Bool) :
    (v : JVal) → ∃ s, dumpsVal true allowNan v = .ok s
  | .jnull => ⟨_, rfl⟩
  | .jbool _ => ⟨_, rfl⟩
  | .jstr _ => ⟨_, rfl⟩
  | .jint _ => ⟨_, rfl⟩
  | .jfloat f => by
      cases f <;> exact ⟨_, rfl⟩
  | .jarr xs => by
      obtain ⟨ss, h⟩ := dumpsArr_ok allowNan xs
      exact ⟨_, by rw [dumpsVal, h]⟩
  | .jobj kvs => by
      obtain ⟨ss, h⟩ := dumpsObj_ok allowNan kvs
      exact ⟨_, by rw [dumpsVal, h]⟩

/-- List serialization with `ignore_nan=True` never raises. -/
theorem dumpsArr_ok (allowNan : Bool) :
    (vs : JArr) → ∃ ss, dumpsArr true allowNan vs = .ok ss
  | .nil => ⟨[], rfl⟩
  | .cons v vs => by
      obtain ⟨s, h1⟩ := dumpsVal_ok allowNan v
      obtain ⟨ss, h2⟩ := dumpsArr_ok allowNan vs
      exact ⟨_, by rw [dumpsArr, h1, h2]⟩

/-- Dict serialization with `ignore_nan=True` never raises. -/
theorem dumpsObj_ok (allowNan : Bool) :
    (kvs : JObj) → ∃ ss, dumpsObj true allowNan kvs = .ok ss
  | .nil => ⟨[], rfl⟩
  | .cons k v kvs => by
      obtain ⟨s, h1⟩ := dumpsVal_ok allowNan v
      obtain ⟨ss, h2⟩ := dumpsObj_ok allowNan kvs
      exact ⟨_, by rw [dumpsObj, h1, h2]⟩
end

/-- A Flask `Response` as this module constructs one: a serialized body,
an HTTP status, and a mimetype. -/
structure Response where
  body : String
  status : Int
  mimetype : String
deriving DecidableEq, Repr

/-- The error levels of `superset.errors.ErrorLevel` (an external module;
the enum's members and string values are fixed by the spec's data model:
INFO, WARNING, ERROR). -/
inductive ErrorLevel where
  | info
  | warning
  | error
deriving DecidableEq, Repr

/-- Serialized string value of an `ErrorLevel` member. -/
def ErrorLevel.value : ErrorLevel → String
  | .info => "info"
  | .warning => "warning"
  | .error => "error"

/-- The two `SupersetErrorType` members this module constructs. -/
inductive SupersetErrorType where
  | GENERIC_BACKEND_ERROR
  | GENERIC_COMMAND_ERROR
deriving DecidableEq, Repr

/-- Serialized string value of a `SupersetErrorType` member. -/
def SupersetErrorType.value : SupersetErrorType → String
  | .GENERIC_BACKEND_ERROR => "GENERIC_BACKEND_ERROR"
  | .GENERIC_COMMAND_ERROR => "GENERIC_COMMAND_ERROR"

/-- Modelled from the spec: `superset.errors.SupersetError` (outside this
slice) is the StructuredError record
`(message, error_type, level, extra mapping)`, immutable once built. -/
structure SupersetError where
  message : String
  error_type : SupersetErrorType
  level : ErrorLevel
  extra : JObj
deriving DecidableEq, Repr

/-- `dataclasses.asdict` of a StructuredError: field-expand it into a
dict. -/
def SupersetError.asdict (e : SupersetError) : JVal :=
  .jobj (.cons "message" (.jstr e.message)
    (.cons "error_type" (.jstr e.error_type.value)
      (.cons "level" (.jstr e.level.value)
        (.cons "extra" (.jobj e.extra) .nil))))

/-- Python f-string interpolation of an optional string, as in
`f"{msg}"`: `None` prints as the text `None`. -/
def pyFStr : Option String → String
  | none => "None"
  | some s => s

/-- Python truthiness of an optional string (`if link:`): `None` and the
empty string are falsy. -/
def pyStrTruthy : Option String → Bool
  | none => false
  | some s => !s.isEmpty

/-- The dict `json_error_response` serializes: the caller's payload when
it is a non-empty dict, the free-text `error` wrapper otherwise, with the
`link` key set when the link is truthy (the two statements before the
`Response(...)` call). -/
def json_error_payload (msg : Option String) (payload : JObj)
    (link : Option String) : JObj :=
  let payload := if payload.isNil then
    JObj.cons "error" (.jstr (pyFStr msg)) .nil else payload
  match link with
  | some l => if l.isEmpty then payload else payload.set "link" (.jstr l)
  | none => payload

/-- `json_error_response`: wrap a free-text message (or a caller-supplied
payload dict) into a JSON response.  `json.dumps` is called with
`ignore_nan=True` and simplejson's default `allow_nan=True`; a
serialization error would propagate as the exception does in Python. -/
def json_error_response (msg : Option String) (status : Int := 500)
    (payload : JObj := .nil) (link : Option String := none) :
    Except String Response :=
  match dumpsVal true true (.jobj (json_error_payload msg payload link)) with
  | .ok body => .ok ⟨body, status, "application/json"⟩
  | .error e => .error e

/-- `json_errors_response`: serialize a list of StructuredErrors (plus an
optional extra payload dict) under the key `"errors"`. -/
def json_errors_response (errors : List SupersetError) (status : Int := 500)
    (payload : JObj := .nil) : Except String Response :=
  let payload := payload.set "errors"
    (.jarr (JArr.ofList (errors.map SupersetError.asdict)))
  match dumpsVal true true (.jobj payload) with
  | .ok body => .ok ⟨body, status, "application/json; charset=utf-8"⟩
  | .error e => .error e

/-- `get_error_msg`: the traceback when the `SHOW_STACKTRACE`
configuration flag is set, a fixed placeholder otherwise.  `tb` stands for
`traceback.format_exc()` of the exception being handled. -/
def get_error_msg (showStacktrace : Bool) (tb : String) : String :=
  if showStacktrace then tb
  else "FATAL ERROR \nStacktrace is hidden. Change the SHOW_STACKTRACE " ++
    "configuration setting to enable it"

/-- The exceptions the decorators in this module dispatch on, as a sum
type ordered by the except-clause chains.  Each constructor carries the
data the handlers read off the exception; `msg` fields carry the value of
`superset.utils.core.error_msg_from_exception` (an external helper) for
that exception, i.e. the message derived from the underlying error.
`dbError` covers the sqlalchemy `IntegrityError`, `DatabaseError` and
`DataError` classes, which one except clause catches together. -/
inductive PyException where
  | supersetSecurity (error : SupersetError) (status : Int) (payload : JObj)
  | supersetErrors (errors : List SupersetError) (status : Int)
  | supersetError (error : SupersetError) (status : Int)
  | superset (msg : String) (status : Int)
  | httpExc (code : Int) (msg : String)
  | dbError (msg : String)
  | noAuthorization (msg : String)
  | otherExc (msg : String)
deriving DecidableEq, Repr

/-- The `api` decorator: the wrapped handler either returns a response
(passed through) or raises; `NoAuthorizationError` becomes a 401 free-text
error and any other exception a 500, both bodies built from
`get_error_msg`. -/
def api (showStacktrace : Bool) (tb : String)
    (outcome : Except PyException Response) : Except String Response :=
  match outcome with
  | .ok r => .ok r
  | .error (.noAuthorization _) =>
      json_error_response (some (get_error_msg showStacktrace tb)) 401
  | .error _ =>
      json_error_response (some (get_error_msg showStacktrace tb))

/-- The `handle_api_exception` decorator: dispatch a raised exception
through the except-clause chain, most specific first.  A
`NoAuthorizationError` matches none of the specific clauses and falls to
the final catch-all, like any other unlisted exception. -/
def handle_api_exception (outcome : Except PyException Response) :
    Except String Response :=
  match outcome with
  | .ok r => .ok r
  | .error (.supersetSecurity e st pl) => json_errors_response [e] st pl
  | .error (.supersetErrors errs st) => json_errors_response errs st
  | .error (.supersetError e st) => json_errors_response [e] st
  | .error (.superset msg st) => json_error_response (some msg) st
  | .error (.httpExc code msg) => json_error_response (some msg) code
  | .error (.dbError msg) => json_error_response (some msg) 422
  | .error (.noAuthorization msg) => json_error_response (some msg)
  | .error (.otherExc msg) => json_error_response (some msg)

/-- `get_error_level_from_status_code`: map an HTTP status to an error
level. -/
def get_error_level_from_status_code (status : Int) : ErrorLevel :=
  if status < 400 then .info
  else if status < 500 then .warning
  else .error

/-- What a global error handler returns: either a JSON `Response` or the
static HTML asset named by its code, served at the given status (the
Python `send_file(path), code` tuple). -/
inductive HandlerResponse where
  | json (r : Response)
  | htmlAsset (assetCode : Int) (status : Int)
deriving DecidableEq, Repr

/-- Python `x or d` on an optional int: `None` and `0` are falsy. -/
def pyIntOr (code : Option Int) (d : Int) : Int :=
  match code with
  | none => d
  | some n => if n = 0 then d else n

/-- `show_http_exception`, the global `HTTPException` handler.
`acceptsHtml` is the truth of `"text/html" in request.accept_mimetypes`,
`debug` the application's DEBUG flag, `code` the exception's optional
code, and `msg` its `error_msg_from_exception` message. -/
def show_http_exception (debug acceptsHtml : Bool) (code : Option Int)
    (msg : String) : Except String HandlerResponse :=
  if acceptsHtml && !debug && (code == some 404 || code == some 500) then
    .ok (.htmlAsset (code.getD 500) (code.getD 500))
  else
    match json_errors_response
        [⟨msg, .GENERIC_BACKEND_ERROR, .error, .nil⟩] (pyIntOr code 500) with
    | .ok r => .ok (.json r)
    | .error e => .error e

/-- The data the `CommandException` handler reads off the exception: its
message, its status, whether it is a `CommandInvalidError`, and in that
case its `normalized_messages()` dict of field-level validation detail. -/
structure CommandExc where
  message : String
  status : Int
  isInvalid : Bool
  invalidMessages : JObj
deriving DecidableEq, Repr

/-- `show_command_errors`, the global `CommandException` handler. -/
def show_command_errors (debug acceptsHtml : Bool) (ex : CommandExc) :
    Except String HandlerResponse :=
  if acceptsHtml && !debug then
    .ok (.htmlAsset 500 500)
  else
    let extra := if ex.isInvalid then ex.invalidMessages else JObj.nil
    match json_errors_response
        [⟨ex.message, .GENERIC_COMMAND_ERROR,
          get_error_level_from_status_code ex.status, extra⟩] ex.status with
    | .ok r => .ok (.json r)
    | .error e => .error e

/-- `show_unexpected_exception`, the global catch-all handler. -/
def show_unexpected_exception (debug acceptsHtml : Bool) (msg : String) :
    Except String HandlerResponse :=
  if acceptsHtml && !debug then
    .ok (.htmlAsset 500 500)
  else
    match json_errors_response
        [⟨msg, .GENERIC_BACKEND_ERROR, .error, .nil⟩] with
    | .ok r => .ok (.json r)
    | .error e => .error e

/-- Werkzeug response headers: an ordered multi-map with case-insensitive
key matching. -/
abbrev Headers := List (String × String)

/-- ASCII lower-casing of one character. -/
def lowerChar (c : Char) : Char :=
  if 'A' ≤ c ∧ c ≤ 'Z' then Char.ofNat (c.toNat + 32) else c

/-- Case-insensitive header-key comparison, as werkzeug performs it. -/
def headerKeyEq (a b : String) : Bool :=
  a.data.map lowerChar == b.data.map lowerChar

/-- Werkzeug `k in headers`. -/
def headersContains (hs : Headers) (k : String) : Bool :=
  hs.any (fun kv => headerKeyEq kv.1 k)

/-- Werkzeug `headers.extend(dict)`: append each of the dict's entries. -/
def headersExtend (hs : Headers) (kvs : List (String × String)) : Headers :=
  hs ++ kvs

/-- Werkzeug `headers[k] = v`: replace the first matching entry and drop
any later duplicates; append when the key is absent. -/
def headersSet : Headers → String → String → Headers
  | [], k, v => [(k, v)]
  | (k0, v0) :: rest, k, v =>
      if headerKeyEq k0 k then
        (k, v) :: rest.filter (fun kv => !headerKeyEq kv.1 k)
      else (k0, v0) :: headersSet rest k v

/-- Werkzeug `headers[k]` lookup: the first matching entry's value. -/
def headersGet (hs : Headers) (k : String) : Option String :=
  (hs.find? (fun kv => headerKeyEq kv.1 k)).map (·.2)

/-- Python `d[k] = v` on a plain string-valued dict (exact-key match). -/
def dictSetStr (d : List (String × String)) (k v : String) :
    List (String × String) :=
  if d.any (fun kv => kv.1 == k) then
    d.map (fun kv => if kv.1 == k then (kv.1, v) else kv)
  else d ++ [(k, v)]

/-- Python `{**a, **b}` on string-valued dicts: start from `a`, fold in
`b`, the later dict winning on key collision. -/
def pyDictMerge (a b : List (String × String)) : List (String × String) :=
  b.foldl (fun acc kv => dictSetStr acc kv.1 kv.2) a

/-- `apply_http_headers`, the after-request hook: extend the response
headers with `{**OVERRIDE_HTTP_HEADERS, **HTTP_HEADERS}`, then apply each
`DEFAULT_HTTP_HEADERS` entry only when its key is not already present. -/
def apply_http_headers (overrideHttpHeaders httpHeaders defaultHttpHeaders :
    List (String × String)) (response : Headers) : Headers :=
  let hs := headersExtend response (pyDictMerge overrideHttpHeaders httpHeaders)
  defaultHttpHeaders.foldl
    (fun acc kv =>
      if headersContains acc kv.1 then acc else headersSet acc kv.1 kv.2)
    hs

/-- The fixed allow-list of configuration keys exposed to the client. -/
def FRONTEND_CONF_KEYS : List String :=
  [ "SUPERSET_WEBSERVER_TIMEOUT",
    "SUPERSET_DASHBOARD_POSITION_DATA_LIMIT",
    "SUPERSET_DASHBOARD_PERIODICAL_REFRESH_LIMIT",
    "SUPERSET_DASHBOARD_PERIODICAL_REFRESH_WARNING_MESSAGE",
    "DISABLE_DATASET_SOURCE_EDIT",
    "ENABLE_JAVASCRIPT_CONTROLS",
    "DEFAULT_SQLLAB_LIMIT",
    "DEFAULT_VIZ_TYPE",
    "SQL_MAX_ROW",
    "SUPERSET_WEBSERVER_DOMAINS",
    "SQLLAB_SAVE_WARNING_MESSAGE",
    "DISPLAY_MAX_ROW",
    "GLOBAL_ASYNC_QUERIES_TRANSPORT",
    "GLOBAL_ASYNC_QUERIES_POLLING_DELAY",
    "SQL_VALIDATORS_BY_ENGINE",
    "SQLALCHEMY_DOCS_URL",
    "SQLALCHEMY_DISPLAY_TEXT",
    "GLOBAL_ASYNC_QUERIES_WEBSOCKET_URL",
    "DASHBOARD_AUTO_REFRESH_MODE",
    "DASHBOARD_AUTO_REFRESH_INTERVALS",
    "DASHBOARD_VIRTUALIZATION",
    "SCHEDULED_QUERIES",
    "EXCEL_EXTENSIONS",
    "CSV_EXTENSIONS",
    "COLUMNAR_EXTENSIONS",
    "ALLOWED_EXTENSIONS",
    "SAMPLES_ROW_LIMIT",
    "DEFAULT_TIME_FILTER",
    "HTML_SANITIZATION",
    "HTML_SANITIZATION_SCHEMA_EXTENSIONS",
    "WELCOME_PAGE_LAST_TAB",
    "VIZ_TYPE_DENYLIST",
    "ALERT_REPORTS_DEFAULT_CRON_VALUE",
    "ALERT_REPORTS_DEFAULT_RETENTION",
    "ALERT_REPORTS_DEFAULT_WORKING_TIMEOUT",
    "NATIVE_FILTER_DEFAULT_ROW_LIMIT",
    "PREVENT_UNSAFE_DEFAULT_URLS_ON_DATASET" ]

/-- Python truthiness of an optional JSON value, as applied to
`conf.get("SLACK_API_TOKEN")`: absent, None, False, empty string, zero
and empty containers are falsy. -/
def pyTruthy : Option JVal → Bool
  | none => false
  | some .jnull => false
  | some (.jbool b) => b
  | some (.jstr s) => !s.isEmpty
  | some (.jint n) => n != 0
  | some (.jfloat f) =>
      match f with
      | .finite r => !(r == "0.0" || r == "0" || r == "-0.0")
      | _ => true
  | some (.jarr xs) => !(xs == .nil)
  | some (.jobj kvs) => !kvs.isNil

/-- The ambient collaborator state `cached_common_bootstrap_data` reads:
the configuration mapping and the values its external collaborators
(feature flags, language pack, menu data, engine specs, the configured
bootstrap-overrides function) produce under that state.  Sets in the
configuration are modelled as already list-valued (the Python code
converts a set to a list before exposing it). -/
structure Ambient where
  conf : JObj
  featureFlags : JObj
  languagePack : String → JVal
  menuData : JVal
  hasGsheetsInstalled : Bool
  overridesFunc : JObj → JObj

/-- The body of `cached_common_bootstrap_data` (the function under the
memoize decorator): build the frontend configuration from the allow-list,
add the notification methods and the gsheets flag, assemble the bootstrap
dict, and apply the configured overrides function.  `user_id` is
deliberately unused by the body; it only widens the cache key. -/
def cached_common_bootstrap_data_body (a : Ambient) (user_id : Option Int)
    (locale : String) : JObj :=
  let frontend_config := JObj.ofList
    (FRONTEND_CONF_KEYS.map (fun k => (k, (a.conf.get k).getD .jnull)))
  let frontend_config :=
    if pyTruthy (a.conf.get "SLACK_API_TOKEN") then
      frontend_config.set "ALERT_REPORTS_NOTIFICATION_METHODS"
        (.jarr (.cons (.jstr "Email") (.cons (.jstr "Slack") .nil)))
    else
      frontend_config.set "ALERT_REPORTS_NOTIFICATION_METHODS"
        (.jarr (.cons (.jstr "Email") .nil))
  let frontend_config := frontend_config.set "HAS_GSHEETS_INSTALLED"
    (.jbool a.hasGsheetsInstalled)
  let bootstrap_data := JObj.ofList
    [ ("conf", .jobj frontend_config),
      ("locale", .jstr locale),
      ("language_pack", a.languagePack locale),
      ("d3_format", (a.conf.get "D3_FORMAT").getD .jnull),
      ("currencies", (a.conf.get "CURRENCIES").getD .jnull),
      ("feature_flags", .jobj a.featureFlags),
      ("extra_sequential_color_schemes",
        (a.conf.get "EXTRA_SEQUENTIAL_COLOR_SCHEMES").getD .jnull),
      ("extra_categorical_color_schemes",
        (a.conf.get "EXTRA_CATEGORICAL_COLOR_SCHEMES").getD .jnull),
      ("theme_overrides", (a.conf.get "THEME_OVERRIDES").getD .jnull),
      ("menu_data", a.menuData) ]
  bootstrap_data.update (a.overridesFunc bootstrap_data)

/-- The process-wide bootstrap cache: per `(user_id, locale)` key, the
cached dict and the time it was stored. -/
abbrev BootstrapCache := List ((Option Int × String) × (JObj × Nat))

/-- Modelled from the spec: the `cache_manager.cache.memoize(timeout=60)`
decorator (flask-caching, outside this repository slice) memoizes
`cached_common_bootstrap_data` per distinct `(user_id, locale)` pair with
a 60-second time-to-live: a call whose key holds a value stored less than
60 seconds ago returns it untouched; otherwise the body runs and its
result is stored at the current time. -/
def cached_common_bootstrap_data (a : Ambient) (cache : BootstrapCache)
    (now : Nat) (user_id : Option Int) (locale : String) :
    JObj × BootstrapCache :=
  match cache.find? (fun e => decide (e.1 = (user_id, locale))) with
  | some e =>
      if now < e.2.2 + 60 then (e.2.1, cache)
      else
        let v := cached_common_bootstrap_data_body a user_id locale
        (v, ((user_id, locale), (v, now)) ::
          cache.filter (fun e => decide (e.1 ≠ (user_id, locale))))
  | none =>
      let v := cached_common_bootstrap_data_body a user_id locale
      (v, ((user_id, locale), (v, now)) ::
        cache.filter (fun e => decide (e.1 ≠ (user_id, locale))))

/-- The per-request state `common_bootstrap_payload` reads: the current
user id, the current locale, and the session's pending flash messages,
each a `(category, message)` pair. -/
structure RequestCtx where
  user_id : Option Int
  locale : String
  flashes : List (String × String)
deriving DecidableEq, Repr

/-- Modelled from the spec: Flask `get_flashed_messages` (outside this
repository slice) returns the session's pending flash messages and clears
them — flash consumption is one-shot per request. -/
def get_flashed_messages (s : RequestCtx) :
    List (String × String) × RequestCtx :=
  (s.flashes, { s with flashes := [] })

/-- Serialize the flash list as `with_categories=True` returns it: a list
of `[category, message]` pairs. -/
def flashesToJson (msgs : List (String × String)) : JVal :=
  .jarr (JArr.ofList (msgs.map (fun p =>
    .jarr (.cons (.jstr p.1) (.cons (.jstr p.2) .nil)))))

/-- `common_bootstrap_payload`: the cacheable bootstrap dict for the
current user and locale, overlaid with the request's one-shot flash
messages.  Returns the payload together with the updated cache and
request state. -/
def common_bootstrap_payload (a : Ambient) (cache : BootstrapCache)
    (now : Nat) (s : RequestCtx) : JObj × BootstrapCache × RequestCtx :=
  let (data, cache') := cached_common_bootstrap_data a cache now s.user_id s.locale
  let (msgs, s') := get_flashed_messages s
  (data.set "flash_messages" (flashesToJson msgs), cache', s')

/-- Setting a key then reading it back yields the new value. -/
theorem JObj.get_set_self : (d : JObj) → (k : String) → (v : JVal) →
    (d.set k v).get k = some v
  | .nil, k, v => by simp [JObj.set, JObj.get]
  | .cons k0 v0 tl, k, v => by
      by_cases h : k0 = k
      · simp [JObj.set, JObj.get, h]
      · simp [JObj.set, JObj.get, h, JObj.get_set_self tl k v]

/-- Does the first character list start the second? -/
def leadsWith : List Char → List Char → Bool
  | [], _ => true
  | _ :: _, [] => false
  | a :: as, b :: bs => a == b && leadsWith as bs

/-- Does the first character list occur contiguously inside the second? -/
def occursIn (needle hay : List Char) : Bool :=
  leadsWith needle hay ||
    match hay with
    | [] => false
    | _ :: t => occursIn needle t

/-- C10: the status-to-level mapping is a total function on the integers
returning INFO exactly below 400, WARNING exactly on [400, 500), and ERROR
exactly from 500 up. -/
theorem claim_C10 (status : Int) :
    (get_error_level_from_status_code status = .info ↔ status < 400) ∧
    (get_error_level_from_status_code status = .warning ↔
      400 ≤ status ∧ status < 500) ∧
    (get_error_level_from_status_code status = .error ↔ 500 ≤ status) := by
  unfold get_error_level_from_status_code
  split_ifs with h1 h2 <;>
    refine ⟨?_, ?_, ?_⟩ <;> simp_all <;> omega

/-- C1, counterexample to the claim as stated: a storage-layer integrity
error dispatched by `handle_api_exception` does get status 422, but the
body is the free-text shape with key `error`; it contains no `errors`
key (and hence no structured-error list) at all. -/
theorem claim_C1_counterexample :
    handle_api_exception (.error (.dbError "UNIQUE constraint failed")) =
      .ok ⟨"\x7b\"error\": \"UNIQUE constraint failed\"\x7d", 422,
        "application/json"⟩ ∧
    occursIn "\"errors\"".data
      "\x7b\"error\": \"UNIQUE constraint failed\"\x7d".data = false := by
  exact ⟨rfl, by decide⟩

/-- C1, amended: a storage-layer integrity/constraint-violation exception
dispatched by `handle_api_exception` yields status 422 with the free-text
JSON body holding the single key `error`, whose value is the message
derived from the underlying error. -/
theorem claim_C1 (msg : String) :
    ∃ r, handle_api_exception (.error (.dbError msg)) = .ok r ∧
      r.status = 422 ∧ r.mimetype = "application/json" ∧
      dumpsVal true true (.jobj (.cons "error" (.jstr msg) .nil)) =
        .ok r.body := by
  obtain ⟨s, hs⟩ := dumpsVal_ok true (.jobj (.cons "error" (.jstr msg) .nil))
  refine ⟨⟨s, 422, "application/json"⟩, ?_, rfl, rfl, hs⟩
  simp [handle_api_exception, json_error_response, json_error_payload,
    JObj.isNil, pyFStr, hs]

/-- C2, counterexample to the claim as stated: a NaN float in the payload
is serialized as the token `null`, not as a literal `NaN` token. -/
theorem claim_C2_counterexample :
    json_error_response (some "x") 500 (.cons "value" (.jfloat .nan) .nil)
        none =
      .ok ⟨"\x7b\"value\": null\x7d", 500, "application/json"⟩ ∧
    occursIn "NaN".data "\x7b\"value\": null\x7d".data = false := by
  exact ⟨rfl, by decide⟩

/-- C2, amended: serialization by the response builders never raises, for
every payload (float-carrying ones included); with `ignore_nan=True` —
the mode both builders use — the non-finite floats NaN, Infinity and
-Infinity are serialized as the JSON token `null` rather than as bare
literal tokens. -/
theorem claim_C2 (msg : Option String) (status : Int) (payload : JObj)
    (link : Option String) (errors : List SupersetError) (status2 : Int)
    (payload2 : JObj) (allowNan : Bool) :
    (∃ r, json_error_response msg status payload link = .ok r) ∧
    (∃ r, json_errors_response errors status2 payload2 = .ok r) ∧
    floatstr true allowNan .nan = .ok "null" ∧
    floatstr true allowNan .inf = .ok "null" ∧
    floatstr true allowNan .ninf = .ok "null" := by
  refine ⟨?_, ?_, rfl, rfl, rfl⟩
  · obtain ⟨s, hs⟩ :=
      dumpsVal_ok true (.jobj (json_error_payload msg payload link))
    exact ⟨⟨s, status, "application/json"⟩, by
      simp [json_error_response, hs]⟩
  · obtain ⟨s, hs⟩ := dumpsVal_ok true (.jobj (payload2.set "errors"
      (.jarr (JArr.ofList (errors.map SupersetError.asdict)))))
    exact ⟨⟨s, status2, "application/json; charset=utf-8"⟩, by
      simp [json_errors_response, hs]⟩

/-- C6, counterexample to the claim as stated: with the SHOW_STACKTRACE
configuration flag enabled, the 401 response produced by the `api`
decorator for an authorization failure carries the full traceback in its
body — a stack trace is exposed to the client. -/
theorem claim_C6_counterexample :
    api true "Traceback: ValueError" (.error (.noAuthorization "na")) =
      .ok ⟨"\x7b\"error\": \"Traceback: ValueError\"\x7d", 401,
        "application/json"⟩ ∧
    occursIn "Traceback: ValueError".data
      "\x7b\"error\": \"Traceback: ValueError\"\x7d".data = true := by
  exact ⟨rfl, by decide⟩

/-- C6, amended: an authorization failure inside a handler wrapped by the
`api` decorator yields status 401 with the JSON body holding the single
key `error` and the `get_error_msg` text — the traceback when
SHOW_STACKTRACE is enabled, the fixed placeholder otherwise (so the stack
trace is withheld only in the latter mode). -/
theorem claim_C6 (showStacktrace : Bool) (tb msg : String) :
    ∃ r, api showStacktrace tb (.error (.noAuthorization msg)) = .ok r ∧
      r.status = 401 ∧ r.mimetype = "application/json" ∧
      dumpsVal true true (.jobj (.cons "error"
        (.jstr (get_error_msg showStacktrace tb)) .nil)) = .ok r.body := by
  obtain ⟨s, hs⟩ := dumpsVal_ok true (.jobj (.cons "error"
    (.jstr (get_error_msg showStacktrace tb)) .nil))
  refine ⟨⟨s, 401, "application/json"⟩, ?_, rfl, rfl, hs⟩
  simp [api, json_error_response, json_error_payload, JObj.isNil, pyFStr, hs]

/-- C7, counterexample to the claim as stated: when a non-empty payload
dict is supplied, the body is that payload alone — it is not merged with
the free-text wrapper, and the message (key `error`) is dropped
entirely. -/
theorem claim_C7_counterexample :
    json_error_response (some "boom") 500 (.cons "x" (.jstr "1") .nil)
        none =
      .ok ⟨"\x7b\"x\": \"1\"\x7d", 500, "application/json"⟩ ∧
    occursIn "error".data "\x7b\"x\": \"1\"\x7d".data = false := by
  exact ⟨rfl, by decide⟩

/-- C7, amended: `json_error_response` serializes `json_error_payload` at
the given status with Content-Type application/json; a non-empty payload
dict replaces the free-text wrapper entirely (the message is dropped); an
empty payload yields the object with the single key `error` holding the
interpolated message; and a truthy link sets the `link` key. -/
theorem claim_C7 (msg msg2 : Option String) (status : Int) (payload : JObj)
    (link : Option String) :
    (∃ r, json_error_response msg status payload link = .ok r ∧
      r.status = status ∧ r.mimetype = "application/json" ∧
      dumpsVal true true (.jobj (json_error_payload msg payload link)) =
        .ok r.body) ∧
    (payload.isNil = false →
      json_error_payload msg payload link =
        json_error_payload msg2 payload link) ∧
    (payload.isNil = true → link = none →
      (json_error_payload msg payload link).get "error" =
        some (.jstr (pyFStr msg))) ∧
    (∀ l, link = some l → l.isEmpty = false →
      (json_error_payload msg payload link).get "link" = some (.jstr l)) := by
  refine ⟨?_, ?_, ?_, ?_⟩
  · obtain ⟨s, hs⟩ :=
      dumpsVal_ok true (.jobj (json_error_payload msg payload link))
    exact ⟨⟨s, status, "application/json"⟩, by
      simp [json_error_response, hs], rfl, rfl, hs⟩
  · intro h
    simp [json_error_payload, h]
  · intro h hl
    subst hl
    simp [json_error_payload, h, JObj.get]
  · intro l hl hne
    subst hl
    simp [json_error_payload, hne, JObj.get_set_self]

/-- C7, witness: with a non-empty payload the message is immaterial, and
a truthy link lands under the `link` key. -/
theorem claim_C7_witness :
    json_error_payload (some "boom") (.cons "x" (.jstr "1") .nil)
        (some "https://docs") =
      json_error_payload none (.cons "x" (.jstr "1") .nil)
        (some "https://docs") ∧
    (json_error_payload (some "boom") (.cons "x" (.jstr "1") .nil)
        (some "https://docs")).get "link" = some (.jstr "https://docs") := by
  refine ⟨?_, ?_⟩
  · exact (claim_C7 (some "boom") none 500 (.cons "x" (.jstr "1") .nil)
      (some "https://docs")).2.1 rfl
  · exact (claim_C7 (some "boom") none 500 (.cons "x" (.jstr "1") .nil)
      (some "https://docs")).2.2.2 "https://docs" rfl rfl

/-- C4: the global `HTTPException` handler serves the static HTML asset
for the exception's code, at that code, exactly when the client accepts
HTML, debug mode is off, and the code is 404 or 500; every other case gets
a JSON response holding a single GENERIC_BACKEND_ERROR structured error at
the exception's status (500 when the code is absent). -/
theorem claim_C4 (debug acceptsHtml : Bool) (code : Option Int)
    (msg : String) :
    ((acceptsHtml = true ∧ debug = false ∧
        (code = some 404 ∨ code = some 500)) →
      ∃ c, code = some c ∧
        show_http_exception debug acceptsHtml code msg =
          .ok (.htmlAsset c c)) ∧
    (¬(acceptsHtml = true ∧ debug = false ∧
        (code = some 404 ∨ code = some 500)) →
      ∃ r, show_http_exception debug acceptsHtml code msg = .ok (.json r) ∧
        r.status = pyIntOr code 500 ∧
        r.mimetype = "application/json; charset=utf-8" ∧
        dumpsVal true true (.jobj (.cons "errors" (.jarr (.cons
          (SupersetError.asdict
            ⟨msg, .GENERIC_BACKEND_ERROR, .error, .nil⟩) .nil)) .nil)) =
          .ok r.body) := by
  constructor
  · rintro ⟨ha, hd, hc⟩
    subst ha; subst hd
    rcases hc with h | h <;> subst h <;> exact ⟨_, rfl, rfl⟩
  · intro hn
    have hb : (acceptsHtml && !debug &&
        (code == some 404 || code == some 500)) = false := by
      rcases Bool.eq_false_or_eq_true (acceptsHtml && !debug &&
        (code == some 404 || code == some 500)) with h | h
      · exfalso
        apply hn
        simp only [Bool.and_eq_true, Bool.or_eq_true, beq_iff_eq,
          Bool.not_eq_true'] at h
        exact ⟨h.1.1, h.1.2, h.2⟩
      · exact h
    obtain ⟨s, hs⟩ := dumpsVal_ok true (.jobj (.cons "errors" (.jarr (.cons
      (SupersetError.asdict
        ⟨msg, .GENERIC_BACKEND_ERROR, .error, .nil⟩) .nil)) .nil))
    refine ⟨⟨s, pyIntOr code 500, "application/json; charset=utf-8"⟩,
      ?_, rfl, rfl, hs⟩
    simp [show_http_exception, hb, json_errors_response, JObj.set,
      JArr.ofList, hs]

/-- C4, witness: a browser-facing 404 gets the 404 asset at 404; a
405 with an API client gets the JSON path at 405. -/
theorem claim_C4_witness :
    show_http_exception false true (some 404) "Not Found" =
      .ok (.htmlAsset 404 404) ∧
    show_http_exception false false (some 405) "Method Not Allowed" =
      .ok (.json ⟨("\x7b\"errors\": [\x7b\"message\": " ++
        "\"Method Not Allowed\", \"error_type\": " ++
        "\"GENERIC_BACKEND_ERROR\", \"level\": \"error\", " ++
        "\"extra\": \x7b\x7d\x7d]\x7d"), 405,
        "application/json; charset=utf-8"⟩) := by
  constructor
  · obtain ⟨c, hc, h⟩ := (claim_C4 false true (some 404) "Not Found").1
      ⟨rfl, rfl, Or.inl rfl⟩
    injection hc with hc'
    subst hc'
    exact h
  · obtain ⟨r, hr, hst, hmt, hbody⟩ :=
      (claim_C4 false false (some 405) "Method Not Allowed").2 (by simp)
    exact rfl

/-- C5, counterexample to the claim as stated: the `CommandException`
handler takes the static-HTML fallback for an HTML-accepting client
outside debug mode even when the exception's status is 422, not
effectively 500 — the fallback condition never consults the status. -/
theorem claim_C5_counterexample :
    show_command_errors false true ⟨"Command failed", 422, false, .nil⟩ =
      .ok (.htmlAsset 500 500) ∧ (422 : Int) ≠ 500 := by
  exact ⟨rfl, by decide⟩

/-- C5, amended: the `CommandException` handler takes the static-HTML
fallback (the 500 asset at status 500) exactly when the client accepts
HTML and debug mode is off, regardless of the exception's status; the
JSON path maps the exception's own status, a GENERIC_COMMAND_ERROR type,
a level derived from the status, and the field-level validation detail as
`extra` when the exception is a `CommandInvalidError`. -/
theorem claim_C5 (debug acceptsHtml : Bool) (ex : CommandExc) :
    ((acceptsHtml = true ∧ debug = false) →
      show_command_errors debug acceptsHtml ex = .ok (.htmlAsset 500 500)) ∧
    (¬(acceptsHtml = true ∧ debug = false) →
      ∃ r, show_command_errors debug acceptsHtml ex = .ok (.json r) ∧
        r.status = ex.status ∧
        r.mimetype = "application/json; charset=utf-8" ∧
        dumpsVal true true (.jobj (.cons "errors" (.jarr (.cons
          (SupersetError.asdict ⟨ex.message, .GENERIC_COMMAND_ERROR,
            get_error_level_from_status_code ex.status,
            if ex.isInvalid then ex.invalidMessages else JObj.nil⟩) .nil))
          .nil)) = .ok r.body) := by
  constructor
  · rintro ⟨ha, hd⟩
    subst ha; subst hd
    rfl
  · intro hn
    have hb : (acceptsHtml && !debug) = false := by
      cases acceptsHtml <;> cases debug <;> simp_all
    obtain ⟨s, hs⟩ := dumpsVal_ok true (.jobj (.cons "errors" (.jarr (.cons
      (SupersetError.asdict ⟨ex.message, .GENERIC_COMMAND_ERROR,
        get_error_level_from_status_code ex.status,
        if ex.isInvalid then ex.invalidMessages else JObj.nil⟩) .nil))
      .nil))
    refine ⟨⟨s, ex.status, "application/json; charset=utf-8"⟩,
      ?_, rfl, rfl, hs⟩
    simp [show_command_errors, hb, json_errors_response, JObj.set,
      JArr.ofList, hs]

/-- C5, witness: a browser-facing command error at 400 still gets the 500
asset; in debug mode the same error takes the JSON path at its own
status 400 with level warning. -/
theorem claim_C5_witness :
    show_command_errors false true ⟨"bad", 400, false, .nil⟩ =
      .ok (.htmlAsset 500 500) ∧
    show_command_errors true true ⟨"bad", 400, false, .nil⟩ =
      .ok (.json ⟨("\x7b\"errors\": [\x7b\"message\": \"bad\", " ++
        "\"error_type\": \"GENERIC_COMMAND_ERROR\", \"level\": " ++
        "\"warning\", \"extra\": \x7b\x7d\x7d]\x7d"), 400,
        "application/json; charset=utf-8"⟩) := by
  constructor
  · exact (claim_C5 false true ⟨"bad", 400, false, .nil⟩).1 ⟨rfl, rfl⟩
  · obtain ⟨r, hr, hst, hmt, hbody⟩ :=
      (claim_C5 true true ⟨"bad", 400, false, .nil⟩).2 (by simp)
    exact rfl

/-- C3: evaluation of the after-request hook at a key present in both
configured maps.  The merge `{**OVERRIDE_HTTP_HEADERS, **HTTP_HEADERS}`
lets the deprecated `HTTP_HEADERS` value win the collision, so the
response carries the custom map's value, not the override map's — the
opposite of what the claim (and the key's name) say. -/
theorem claim_C3_code_behavior :
    headersGet (apply_http_headers [("X-Frame-Options", "DENY")]
        [("X-Frame-Options", "SAMEORIGIN")] [] []) "X-Frame-Options" =
      some "SAMEORIGIN" ∧
    (some "SAMEORIGIN" : Option String) ≠ some "DENY" := by
  exact ⟨by decide, by decide⟩

/-- A concrete ambient collaborator state, for evaluating the bootstrap
assembler at a specific input. -/
def sampleAmbient : Ambient where
  conf := .nil
  featureFlags := .nil
  languagePack := fun _ => .jnull
  menuData := .jnull
  hasGsheetsInstalled := false
  overridesFunc := fun _ => .nil

/-- C8: under unchanged ambient state, a second call to the memoized
bootstrap computation with the identical `(user_id, locale)` pair within
60 seconds is a cache hit — it returns the first call's value and leaves
the cache untouched — while a call with a different locale inside the
same window computes its value fresh from the current ambient state. -/
theorem claim_C8 (a : Ambient) (uid : Option Int) (l l2 : String)
    (t1 t2 : Nat) (h1 : t1 ≤ t2) (h2 : t2 < t1 + 60) (hne : l2 ≠ l) :
    (cached_common_bootstrap_data a
        ((cached_common_bootstrap_data a [] t1 uid l).2) t2 uid l).1 =
      (cached_common_bootstrap_data a [] t1 uid l).1 ∧
    (cached_common_bootstrap_data a
        ((cached_common_bootstrap_data a [] t1 uid l).2) t2 uid l).2 =
      (cached_common_bootstrap_data a [] t1 uid l).2 ∧
    (cached_common_bootstrap_data a
        ((cached_common_bootstrap_data a [] t1 uid l).2) t2 uid l2).1 =
      cached_common_bootstrap_data_body a uid l2 := by
  have hfirst : cached_common_bootstrap_data a [] t1 uid l =
      (cached_common_bootstrap_data_body a uid l,
        [((uid, l), (cached_common_bootstrap_data_body a uid l, t1))]) := by
    simp [cached_common_bootstrap_data]
  rw [hfirst]
  have hkey : decide (((uid, l) : Option Int × String) = (uid, l)) = true :=
    by simp
  have hkey2 : decide (l = l2) = false := by
    simp [Ne.symm hne]
  refine ⟨?_, ?_, ?_⟩
  · simp [cached_common_bootstrap_data, List.find?, hkey, h2]
  · simp [cached_common_bootstrap_data, List.find?, hkey, h2]
  · simp [cached_common_bootstrap_data, List.find?, hkey2]

/-- C8, witness: the two-call scenario at times 0 and 30 with user `None`,
locale `en`, then locale `fr`. -/
theorem claim_C8_witness :
    (0 : Nat) ≤ 30 ∧ (30 : Nat) < 0 + 60 ∧ ("fr" : String) ≠ "en" ∧
    ((cached_common_bootstrap_data sampleAmbient
        ((cached_common_bootstrap_data sampleAmbient [] 0 none "en").2)
        30 none "en").1 =
      (cached_common_bootstrap_data sampleAmbient [] 0 none "en").1 ∧
    (cached_common_bootstrap_data sampleAmbient
        ((cached_common_bootstrap_data sampleAmbient [] 0 none "en").2)
        30 none "en").2 =
      (cached_common_bootstrap_data sampleAmbient [] 0 none "en").2 ∧
    (cached_common_bootstrap_data sampleAmbient
        ((cached_common_bootstrap_data sampleAmbient [] 0 none "en").2)
        30 none "fr").1 =
      cached_common_bootstrap_data_body sampleAmbient none "fr") := by
  exact ⟨by decide, by decide, by decide,
    claim_C8 sampleAmbient none "en" "fr" 0 30 (by decide) (by decide)
      (by decide)⟩

/-- C9: within a request, the first call to `common_bootstrap_payload`
returns the request's pending flash messages under `flash_messages` and
clears them from the session state; the second call on the resulting
state returns an empty flash list. -/
theorem claim_C9 (a : Ambient) (cache : BootstrapCache) (t1 t2 : Nat)
    (s : RequestCtx) :
    ((common_bootstrap_payload a cache t1 s).1).get "flash_messages" =
      some (flashesToJson s.flashes) ∧
    ((common_bootstrap_payload a cache t1 s).2.2).flashes = [] ∧
    ((common_bootstrap_payload a
        ((common_bootstrap_payload a cache t1 s).2.1) t2
        ((common_bootstrap_payload a cache t1 s).2.2)).1).get
      "flash_messages" = some (.jarr .nil) := by
  refine ⟨?_, ?_, ?_⟩
  · simp [common_bootstrap_payload, get_flashed_messages, JObj.get_set_self]
  · simp [common_bootstrap_payload, get_flashed_messages]
  · simp [common_bootstrap_payload, get_flashed_messages,
      JObj.get_set_self, flashesToJson, JArr.ofList]
